import Mathlib

/-!
Shallow embedding of the authentication/authorization core of the repository
(the NextAuth options module: three credential providers and the
signIn/jwt/session callbacks).  The local relational store (prisma `user` and
`adminWhitelist` tables) is modelled as explicit list-backed state; the remote
store ("neon") client and the bcrypt comparison are consumed collaborator
interfaces per the spec and are modelled as behaviour parameters.  Errors
thrown by the source are modelled as `Except String` carrying the literal
message strings of the source.
-/

namespace LabPr

/-- A row of the local `user` table (prisma `user.findUnique` / `user.upsert`). -/
structure LocalUserRecord where
  id : String
  email : String
  name : Option String
  image : Option String
  role : String
  password : Option String
deriving DecidableEq

/-- A row of the local `adminWhitelist` table. -/
structure WhitelistEntry where
  email : String
  isActive : Bool
  canManageUsers : Bool
  canManageContent : Bool
  canManageSettings : Bool
deriving DecidableEq

/-- The local relational store: the two tables the core reads/writes. -/
structure Db where
  users : List LocalUserRecord
  adminWhitelist : List WhitelistEntry
deriving DecidableEq

/-- `prisma.user.findUnique({ where: { email } })`: first row whose email
equals the key verbatim. -/
def findUser (db : Db) (email : String) : Option LocalUserRecord :=
  db.users.find? (fun u => u.email == email)

/-- `prisma.adminWhitelist.findUnique({ where: { email } })`. -/
def findWhitelist (db : Db) (email : String) : Option WhitelistEntry :=
  db.adminWhitelist.find? (fun w => w.email == email)

/-- JS falsiness of an optional string field (`undefined`/`null` or `''`). -/
def optFalsy : Option String → Bool
  | none => true
  | some s => s == ""

/-- The credentials object handed to an `authorize` callback. -/
structure Credentials where
  email : Option String
  password : Option String
deriving DecidableEq

/-- The identity object returned by the plain `credentials` provider. -/
structure Identity where
  id : String
  email : String
  name : Option String
  image : Option String
deriving DecidableEq

/-- A record of the remote ("neon") store, as returned by
`neonAuth.authenticateUser`. -/
structure NeonUser where
  id : String
  email : String
  name : Option String
  role : String
  databaseRole : String
  permissions : List String
deriving DecidableEq

/-- The identity object returned by the `neon-auth` provider (it additionally
carries the remote databaseRole and permissions payload). -/
structure NeonIdentity where
  id : String
  email : String
  name : Option String
  image : Option String
  neonRole : String
  permissions : List String
deriving DecidableEq

/-- Outcome of the `neon-auth` provider's `authorize`: the returned identity
or thrown error, whether a remote service handle was acquired
(`getNeonAuthService()` ran), and whether `disconnect()` was called. -/
structure NeonAuthOutcome where
  result : Except String NeonIdentity
  connected : Bool
  disconnected : Bool

/-- `CredentialsProvider('neon-auth').authorize`.  The remote call
`neonAuth.authenticateUser(email, password)` is a collaborator interface; its
outcome (a thrown error, no match, or a matching record) is the `remote`
parameter.  The source wraps the remote call in try/catch/finally: the catch
re-throws, the finally always calls `disconnect()`.  The missing-credentials
throw happens before `getNeonAuthService()`, so no handle exists there. -/
def neonAuthorize (remote : Except String (Option NeonUser)) (c : Credentials) :
    NeonAuthOutcome :=
  if optFalsy c.email || optFalsy c.password then
    { result := .error "Email and password are required"
      connected := false, disconnected := false }
  else
    match remote with
    | .error e =>
        { result := .error e, connected := true, disconnected := true }
    | .ok none =>
        { result := .error "Invalid credentials"
          connected := true, disconnected := true }
    | .ok (some u) =>
        if u.role != "ADMIN" then
          { result := .error "Admin access required"
            connected := true, disconnected := true }
        else
          { result := .ok { id := u.id, email := u.email, name := u.name,
                            image := none, neonRole := u.databaseRole,
                            permissions := u.permissions }
            connected := true, disconnected := true }

/-- `CredentialsProvider('credentials').authorize`.  `bcompare` is
`bcrypt.compare` (a consumed collaborator).  The source checks
`!user || !user.password` (absence or falsy hash), then the password, then the
role, then the active whitelist entry, throwing the literal messages. -/
def credentialsAuthorize (bcompare : String → String → Bool) (db : Db)
    (c : Credentials) : Except String Identity :=
  if optFalsy c.email || optFalsy c.password then
    .error "Email and password are required"
  else
    match findUser db (c.email.getD "") with
    | none => .error "Invalid credentials"
    | some user =>
      if optFalsy user.password then .error "Invalid credentials"
      else if bcompare (c.password.getD "") (user.password.getD "") = false then
        .error "Invalid credentials"
      else if user.role != "ADMIN" then .error "Admin access required"
      else
        match findWhitelist db (c.email.getD "") with
        | none => .error "Admin access not authorized"
        | some adminEntry =>
          if !adminEntry.isActive then .error "Admin access not authorized"
          else .ok { id := user.id, email := user.email, name := user.name,
                     image := user.image }

/-- The authorization verdict written into the token by the jwt callback. -/
structure Verdict where
  isAdmin : Bool
  canManageUsers : Bool
  canManageContent : Bool
  canManageSettings : Bool
deriving DecidableEq

/-- Lines 188-196 of the jwt callback: combine the local record and the
whitelist entry.  `hasAdminRole = userData?.role === 'ADMIN'`,
`isInActiveWhitelist = adminEntry?.isActive ?? false`, the three permission
flags are gated by the computed `isAdmin`. -/
def resolveVerdict (userData : Option LocalUserRecord)
    (adminEntry : Option WhitelistEntry) : Verdict :=
  let hasAdminRole := match userData with
    | some u => u.role == "ADMIN"
    | none => false
  let isInActiveWhitelist := match adminEntry with
    | some e => e.isActive
    | none => false
  let isAdmin := hasAdminRole && isInActiveWhitelist
  { isAdmin := isAdmin
    canManageUsers :=
      if isAdmin then
        (match adminEntry with | some e => e.canManageUsers | none => false)
      else false
    canManageContent :=
      if isAdmin then
        (match adminEntry with | some e => e.canManageContent | none => false)
      else false
    canManageSettings :=
      if isAdmin then
        (match adminEntry with | some e => e.canManageSettings | none => false)
      else false }

/-- The JWT token claims structure mutated by the jwt callback. -/
structure Token where
  id : Option String
  email : Option String
  isAdmin : Bool
  canManageUsers : Bool
  canManageContent : Bool
  canManageSettings : Bool
deriving DecidableEq

/-- Overwrite the authorization fields of a token with a verdict. -/
def applyVerdict (t : Token) (v : Verdict) : Token :=
  { t with isAdmin := v.isAdmin, canManageUsers := v.canManageUsers,
           canManageContent := v.canManageContent,
           canManageSettings := v.canManageSettings }

/-- `authOptions.callbacks.jwt` with the store reads succeeding: copy
`user.id` when a user object is present, then if `token.email` is truthy,
re-read both tables and overwrite the authorization claims. -/
def jwtCallback (db : Db) (token : Token) (user : Option Identity) : Token :=
  let token1 := match user with
    | some u => { token with id := some u.id }
    | none => token
  if optFalsy token1.email then token1
  else
    applyVerdict token1
      (resolveVerdict (findUser db (token1.email.getD ""))
        (findWhitelist db (token1.email.getD "")))

/-- `authOptions.callbacks.jwt` with fallible store reads.  The source awaits
`prisma.user.findUnique` and `prisma.adminWhitelist.findUnique` with no
try/catch around them, so a rejected read propagates out of the callback;
monadic propagation is the faithful translation. -/
def jwtCallbackE (readUser : String → Except String (Option LocalUserRecord))
    (readWhitelist : String → Except String (Option WhitelistEntry))
    (token : Token) (user : Option Identity) : Except String Token :=
  let token1 := match user with
    | some u => { token with id := some u.id }
    | none => token
  if optFalsy token1.email then .ok token1
  else
    match readUser (token1.email.getD "") with
    | .error e => .error e
    | .ok userData =>
      match readWhitelist (token1.email.getD "") with
      | .error e => .error e
      | .ok adminEntry =>
        .ok (applyVerdict token1 (resolveVerdict userData adminEntry))

/-- The remote ("neon") store's user table. -/
structure NeonState where
  users : List NeonUser
deriving DecidableEq

/-- Remote lookup by email (`neonAuth.authenticateUser(email)` with no
password: a provisioning-time existence check). -/
def findNeonUser (st : NeonState) (email : String) : Option NeonUser :=
  st.users.find? (fun u => u.email == email)

/-- Behaviour of the remote-store client during federated synchronization:
every call succeeds against the state, the lookup throws, or the create
throws.  This is the failure-injection surface the spec's partial-failure
contract is about. -/
inductive NeonBehavior where
  | reachable
  | lookupFails (msg : String)
  | createFails (msg : String)
deriving DecidableEq

/-- The `user` object delivered to the signIn callback by the federated
provider. -/
structure SignInUser where
  email : Option String
  name : Option String
  image : Option String
deriving DecidableEq

/-- The `update` clause of the upsert: overwrite name/image/role on the row
matching the email key, leave every other row alone. -/
def updateFields (name image : Option String) (role : String)
    (email : String) (u : LocalUserRecord) : LocalUserRecord :=
  if u.email == email then
    { u with name := name, image := image, role := role }
  else u

/-- The `create` clause of the upsert: the fresh row (a store-generated id,
modelled as the email, and no password hash). -/
def createRec (email : String) (name image : Option String)
    (role : String) : LocalUserRecord :=
  { id := email, email := email, name := name, image := image,
    role := role, password := none }

/-- `prisma.user.upsert({ where: { email }, update: {name, image, role},
create: {email, name, image, role} })`: a single atomic insert-or-update by
unique email. -/
def upsertUser (db : Db) (email : String) (name image : Option String)
    (role : String) : Db :=
  if db.users.any (fun u => u.email == email) then
    { db with users := db.users.map (updateFields name image role email) }
  else
    { db with users := db.users ++ [createRec email name image role] }

/-- Observable outcome of one run of the signIn callback. -/
structure SignInResult where
  accept : Bool
  db : Db
  neon : NeonState
  neonDisconnected : Bool
  neonError : Option String
deriving DecidableEq

/-- The remote-provisioning block of the signIn callback (the body of its
try): look up the remote record, create one when absent, then
`await neonAuth.disconnect()` — all inside the try, so a throw from the
lookup or the create skips the disconnect.  Returns the new remote state (or
the thrown message) and whether disconnect ran. -/
def neonProvision (beh : NeonBehavior) (st : NeonState) (email : String)
    (name : Option String) (role : String) :
    Except String NeonState × Bool :=
  match beh with
  | .lookupFails msg => (.error msg, false)
  | .reachable =>
    match findNeonUser st email with
    | some _ => (.ok st, true)
    | none =>
      (.ok { users := st.users ++
          [{ id := email, email := email, name := name, role := role,
             databaseRole := "", permissions := [] }] }, true)
  | .createFails msg =>
    match findNeonUser st email with
    | some _ => (.ok st, true)
    | none => (.error msg, false)

/-- `authOptions.callbacks.signIn`.  For a Google sign-in with a truthy
email: read the whitelist, derive the role, atomically upsert the local
record, then attempt remote provisioning in a try/catch whose catch records
the error and continues; the callback returns `true` on every path. -/
def signInCallback (beh : NeonBehavior) (db : Db) (neon : NeonState)
    (provider : String) (user : SignInUser) : SignInResult :=
  if provider == "google" && !(optFalsy user.email) then
    let email := user.email.getD ""
    let adminEntry := findWhitelist db email
    let isAdmin := match adminEntry with
      | some e => e.isActive
      | none => false
    let userRole := if isAdmin then "ADMIN" else "USER"
    let db1 := upsertUser db email user.name user.image userRole
    match neonProvision beh neon email user.name userRole with
    | (.ok neon1, disc) =>
        { accept := true, db := db1, neon := neon1,
          neonDisconnected := disc, neonError := none }
    | (.error msg, disc) =>
        { accept := true, db := db1, neon := neon,
          neonDisconnected := disc, neonError := some msg }
  else
    { accept := true, db := db, neon := neon,
      neonDisconnected := false, neonError := none }

/-! ### Concrete fixtures used by witnesses and counterexamples -/

/-- An ADMIN-role local record for `a@x.com` with a password hash. -/
def adminUser : LocalUserRecord :=
  { id := "u1", email := "a@x.com", name := some "Alice", image := none,
    role := "ADMIN", password := some "hash1" }

/-- An active whitelist entry for `a@x.com` (spec's end-to-end fixture). -/
def wlActive : WhitelistEntry :=
  { email := "a@x.com", isActive := true, canManageUsers := true,
    canManageContent := false, canManageSettings := false }

/-- An inactive whitelist entry that still stores `true` permission flags
(the spec's intentionally inconsistent fixture row). -/
def wlInactive : WhitelistEntry :=
  { email := "a@x.com", isActive := false, canManageUsers := true,
    canManageContent := true, canManageSettings := true }

/-- Store: ADMIN record plus active whitelist entry. -/
def dbAdminActive : Db := { users := [adminUser], adminWhitelist := [wlActive] }

/-- Store: ADMIN record plus inactive whitelist entry with true flags. -/
def dbAdminInactive : Db :=
  { users := [adminUser], adminWhitelist := [wlInactive] }

/-- A fresh token carrying the fixture email. -/
def tokA : Token :=
  { id := none, email := some "a@x.com", isAdmin := false,
    canManageUsers := false, canManageContent := false,
    canManageSettings := false }

/-- A federated principal for the fixture email. -/
def googleUserA : SignInUser :=
  { email := some "a@x.com", name := some "Alice", image := none }

/-- An empty remote store. -/
def neonEmpty : NeonState := { users := [] }

/-! ### Claims -/

/-- The verdict fields of `jwtCallback` when the token carries a non-empty
email are exactly `resolveVerdict` of the two lookups. -/
theorem jwtCallback_eq (db : Db) (t : Token) (u : Option Identity)
    (e : String) (he : (match u with
      | some i => { t with id := some i.id }
      | none => t).email = some e) (hne : e ≠ "") :
    jwtCallback db t u =
      applyVerdict (match u with
        | some i => { t with id := some i.id }
        | none => t)
        (resolveVerdict (findUser db e) (findWhitelist db e)) := by
  cases u with
  | none =>
    have he2 : t.email = some e := he
    simp [jwtCallback, optFalsy, he2, hne, beq_iff_eq]
  | some i =>
    have he2 : t.email = some e := he
    simp [jwtCallback, optFalsy, he2, hne, beq_iff_eq]

/-- C1: on a token refresh, `isAdmin` is true iff the local record exists
with role ADMIN and the whitelist entry exists with `isActive = true`;
absence of either yields `isAdmin = false`. -/
theorem c1_isAdmin_iff (db : Db) (t : Token) (u : Option Identity)
    (e : String) (he : t.email = some e) (hne : e ≠ "") :
    (jwtCallback db t u).isAdmin = true ↔
      ((∃ ur, findUser db e = some ur ∧ ur.role = "ADMIN") ∧
       (∃ w, findWhitelist db e = some w ∧ w.isActive = true)) := by
  have he1 : (match u with
      | some i => { t with id := some i.id }
      | none => t).email = some e := by cases u <;> simpa using he
  rw [jwtCallback_eq db t u e he1 hne]
  cases hu : findUser db e <;> cases hw : findWhitelist db e <;>
    simp [applyVerdict, resolveVerdict, beq_iff_eq]

/-- Witness for C1: on the fixture store (ADMIN role, active whitelist) the
refreshed token has `isAdmin = true`. -/
theorem c1_isAdmin_iff_witness :
    (jwtCallback dbAdminActive tokA none).isAdmin = true :=
  (c1_isAdmin_iff dbAdminActive tokA none "a@x.com" rfl (by decide)).mpr
    ⟨⟨adminUser, by decide, rfl⟩, ⟨wlActive, by decide, rfl⟩⟩

/-- C2: whenever the refreshed token has `isAdmin = false`, all three
granular permissions in it are false, whatever the whitelist row stores. -/
theorem c2_permissions_gated (db : Db) (t : Token) (u : Option Identity)
    (e : String) (he : t.email = some e) (hne : e ≠ "")
    (h : (jwtCallback db t u).isAdmin = false) :
    (jwtCallback db t u).canManageUsers = false ∧
    (jwtCallback db t u).canManageContent = false ∧
    (jwtCallback db t u).canManageSettings = false := by
  have he1 : (match u with
      | some i => { t with id := some i.id }
      | none => t).email = some e := by cases u <;> simpa using he
  rw [jwtCallback_eq db t u e he1 hne] at h ⊢
  simp only [applyVerdict, resolveVerdict] at h ⊢
  simp_all

/-- Witness for C2: with an ADMIN-role record but an inactive whitelist row
whose permission flags are all `true`, the verdict is not admin and every
permission is still `false`. -/
theorem c2_permissions_gated_witness :
    (jwtCallback dbAdminInactive tokA none).canManageUsers = false ∧
    (jwtCallback dbAdminInactive tokA none).canManageContent = false ∧
    (jwtCallback dbAdminInactive tokA none).canManageSettings = false :=
  c2_permissions_gated dbAdminInactive tokA none "a@x.com" rfl (by decide)
    (by decide)

/-- The role the signIn callback derives from the whitelist state. -/
def targetRole (db : Db) (e : String) : String :=
  if (match findWhitelist db e with
      | some w => w.isActive
      | none => false) then "ADMIN" else "USER"

/-- C3: when a remote-store call during federated synchronization fails
(the lookup throws, or the record is absent and the create throws), the
error is recorded rather than propagated, the sign-in still returns accept,
and the local upsert is still performed. -/
theorem c3_partial_failure (beh : NeonBehavior) (m : String) (db : Db)
    (neon : NeonState) (u : SignInUser) (e : String)
    (hb : beh = .lookupFails m ∨
      (beh = .createFails m ∧ findNeonUser neon e = none))
    (he : u.email = some e) (hne : e ≠ "") :
    (signInCallback beh db neon "google" u).accept = true ∧
    (signInCallback beh db neon "google" u).db =
      upsertUser db e u.name u.image (targetRole db e) ∧
    (signInCallback beh db neon "google" u).neonError = some m := by
  rcases hb with hb | ⟨hb, hn⟩
  · subst hb
    simp [signInCallback, neonProvision, targetRole, optFalsy, he, hne,
      beq_iff_eq]
  · subst hb
    simp [signInCallback, neonProvision, targetRole, optFalsy, he, hne,
      beq_iff_eq, hn]

/-- Witness for C3: remote lookup throwing "connection refused" on the
fixture sign-in still accepts, still upserts locally, and records the
error. -/
theorem c3_partial_failure_witness :
    (signInCallback (.lookupFails "connection refused") dbAdminActive
        neonEmpty "google" googleUserA).accept = true ∧
    (signInCallback (.lookupFails "connection refused") dbAdminActive
        neonEmpty "google" googleUserA).db =
      upsertUser dbAdminActive "a@x.com" (some "Alice") none
        (targetRole dbAdminActive "a@x.com") ∧
    (signInCallback (.lookupFails "connection refused") dbAdminActive
        neonEmpty "google" googleUserA).neonError =
      some "connection refused" :=
  c3_partial_failure (.lookupFails "connection refused") "connection refused"
    dbAdminActive neonEmpty googleUserA "a@x.com" (Or.inl rfl) rfl (by decide)

/-- Counterexample to C4: in the federated synchronizer a failing remote
lookup records the error but `disconnect()` is never reached — the handle is
not released on this exit path. -/
theorem c4_counterexample :
    (signInCallback (.lookupFails "connection refused") dbAdminActive
        neonEmpty "google" googleUserA).neonError =
      some "connection refused" ∧
    (signInCallback (.lookupFails "connection refused") dbAdminActive
        neonEmpty "google" googleUserA).neonDisconnected = false := by
  exact ⟨rfl, rfl⟩

/-- C4 as amended: the remote-credential validator releases the handle on
every exit path on which one was acquired (error, no-match, wrong role, and
success alike); the federated synchronizer releases it exactly when no
remote call throws — on a thrown lookup or create the release is skipped. -/
theorem c4_amended_release :
    (∀ remote c, (optFalsy c.email || optFalsy c.password) = false →
        (neonAuthorize remote c).connected = true ∧
        (neonAuthorize remote c).disconnected = true) ∧
    (∀ beh db neon u e, u.email = some e → e ≠ "" →
        ((signInCallback beh db neon "google" u).neonDisconnected = true ↔
         (signInCallback beh db neon "google" u).neonError = none)) := by
  constructor
  · intro remote c h
    cases remote with
    | error msg => simp [neonAuthorize, h]
    | ok o =>
      cases o with
      | none => simp [neonAuthorize, h]
      | some nu =>
        by_cases hr : nu.role = "ADMIN" <;> simp [neonAuthorize, h, hr]
  · intro beh db neon u e he hne
    cases beh with
    | reachable =>
      cases hn : findNeonUser neon e <;>
        simp [signInCallback, neonProvision, optFalsy, he, hne, beq_iff_eq, hn]
    | lookupFails msg =>
      simp [signInCallback, neonProvision, optFalsy, he, hne, beq_iff_eq]
    | createFails msg =>
      cases hn : findNeonUser neon e <;>
        simp [signInCallback, neonProvision, optFalsy, he, hne, beq_iff_eq, hn]

/-- Witness for the amended C4: validator with a thrown remote call still
disconnects; synchronizer on a reachable remote disconnects and records no
error. -/
theorem c4_amended_release_witness :
    ((neonAuthorize (.error "timeout")
        { email := some "a@x.com", password := some "pw" }).connected = true ∧
     (neonAuthorize (.error "timeout")
        { email := some "a@x.com", password := some "pw" }).disconnected
        = true) ∧
    ((signInCallback .reachable dbAdminActive neonEmpty "google"
        googleUserA).neonDisconnected = true ↔
     (signInCallback .reachable dbAdminActive neonEmpty "google"
        googleUserA).neonError = none) :=
  ⟨c4_amended_release.1 (.error "timeout")
      { email := some "a@x.com", password := some "pw" } (by decide),
   c4_amended_release.2 .reachable dbAdminActive neonEmpty googleUserA
      "a@x.com" rfl (by decide)⟩

/-- C10: a federated sign-in whose principal carries no (truthy) email is
still accepted, and the whole synchronization step is skipped: the local
store, the remote store, and the connection flags are untouched. -/
theorem c10_no_email_skips_sync (beh : NeonBehavior) (db : Db)
    (neon : NeonState) (u : SignInUser) (h : optFalsy u.email = true) :
    signInCallback beh db neon "google" u =
      { accept := true, db := db, neon := neon, neonDisconnected := false,
        neonError := none } := by
  simp [signInCallback, h]

/-- Witness for C10: a Google principal with no email at all. -/
theorem c10_no_email_skips_sync_witness :
    signInCallback .reachable dbAdminActive neonEmpty "google"
        { email := none, name := none, image := none } =
      { accept := true, db := dbAdminActive, neon := neonEmpty,
        neonDisconnected := false, neonError := none } :=
  c10_no_email_skips_sync .reachable dbAdminActive neonEmpty
    { email := none, name := none, image := none } rfl

/-- A local-store read that always fails (store unreachable). -/
def readUserDown : String → Except String (Option LocalUserRecord) :=
  fun _ => .error "connection refused"

/-- A whitelist read that succeeds with no row. -/
def readWhitelistEmpty : String → Except String (Option WhitelistEntry) :=
  fun _ => .ok none

/-- Counterexample to C5: with the local-store read failing, the token
refresh surfaces the error to its caller instead of producing a negative
verdict — the source has no try/catch around the resolution reads. -/
theorem c5_counterexample :
    jwtCallbackE readUserDown readWhitelistEmpty tokA none =
      .error "connection refused" := by
  exact rfl

/-- C5 as amended: absence of either record degrades to a fully negative
verdict, but a failing store read is not caught — the error from either
read propagates out of the token refresh. -/
theorem c5_amended_fail_propagates :
    (∀ db t u e, t.email = some e → e ≠ "" →
        (findUser db e = none ∨ findWhitelist db e = none) →
        (jwtCallback db t u).isAdmin = false ∧
        (jwtCallback db t u).canManageUsers = false ∧
        (jwtCallback db t u).canManageContent = false ∧
        (jwtCallback db t u).canManageSettings = false) ∧
    (∀ ru rw t u e m, t.email = some e → e ≠ "" → ru e = .error m →
        jwtCallbackE ru rw t u = .error m) ∧
    (∀ ru rw t u e m x, t.email = some e → e ≠ "" → ru e = .ok x →
        rw e = .error m → jwtCallbackE ru rw t u = .error m) := by
  refine ⟨?_, ?_, ?_⟩
  · intro db t u e he hne habs
    have he1 : (match u with
        | some i => { t with id := some i.id }
        | none => t).email = some e := by cases u <;> simpa using he
    rw [jwtCallback_eq db t u e he1 hne]
    rcases habs with h | h <;>
      cases hu : findUser db e <;> cases hw : findWhitelist db e <;>
        simp_all [applyVerdict, resolveVerdict]
  · intro ru rw t u e m he hne hr
    cases u with
    | none =>
      have he2 : t.email = some e := he
      simp [jwtCallbackE, optFalsy, he2, hne, beq_iff_eq, hr]
    | some i =>
      have he2 : t.email = some e := he
      simp [jwtCallbackE, optFalsy, he2, hne, beq_iff_eq, hr]
  · intro ru rw t u e m x he hne hr hw
    cases u with
    | none =>
      have he2 : t.email = some e := he
      simp [jwtCallbackE, optFalsy, he2, hne, beq_iff_eq, hr, hw]
    | some i =>
      have he2 : t.email = some e := he
      simp [jwtCallbackE, optFalsy, he2, hne, beq_iff_eq, hr, hw]

/-- Witness for the amended C5: an empty store yields the negative verdict;
a failing user read and a failing whitelist read each surface their error. -/
theorem c5_amended_fail_propagates_witness :
    ((jwtCallback { users := [], adminWhitelist := [] } tokA none).isAdmin
        = false ∧
     (jwtCallback { users := [], adminWhitelist := [] } tokA
        none).canManageUsers = false ∧
     (jwtCallback { users := [], adminWhitelist := [] } tokA
        none).canManageContent = false ∧
     (jwtCallback { users := [], adminWhitelist := [] } tokA
        none).canManageSettings = false) ∧
    jwtCallbackE readUserDown (fun _ => .ok (some wlActive)) tokA none =
      .error "connection refused" ∧
    jwtCallbackE (fun _ => .ok (some adminUser)) (fun _ => .error "io fail")
        tokA none = .error "io fail" :=
  ⟨c5_amended_fail_propagates.1 { users := [], adminWhitelist := [] } tokA
      none "a@x.com" rfl (by decide) (Or.inl rfl),
   c5_amended_fail_propagates.2.1 readUserDown
      (fun _ => .ok (some wlActive)) tokA none "a@x.com" "connection refused"
      rfl (by decide) rfl,
   c5_amended_fail_propagates.2.2 (fun _ => .ok (some adminUser))
      (fun _ => .error "io fail") tokA none "a@x.com" "io fail"
      (some adminUser) rfl (by decide) rfl rfl⟩

/-- C6: the local-credential strategy rejects blank credentials before any
store access (the verdict is the same for every store state), fails
`Invalid credentials` on a missing record, a missing hash, or a password
mismatch, fails `Admin access required` on a non-ADMIN role, and fails
`Admin access not authorized` when no active whitelist entry exists. -/
theorem c6_local_strategy :
    (∀ bc db c, (optFalsy c.email || optFalsy c.password) = true →
        credentialsAuthorize bc db c =
          .error "Email and password are required") ∧
    (∀ bc db c e, (optFalsy c.email || optFalsy c.password) = false →
        c.email = some e → findUser db e = none →
        credentialsAuthorize bc db c = .error "Invalid credentials") ∧
    (∀ bc db c e user, (optFalsy c.email || optFalsy c.password) = false →
        c.email = some e → findUser db e = some user →
        optFalsy user.password = true →
        credentialsAuthorize bc db c = .error "Invalid credentials") ∧
    (∀ bc db c e user, (optFalsy c.email || optFalsy c.password) = false →
        c.email = some e → findUser db e = some user →
        optFalsy user.password = false →
        bc (c.password.getD "") (user.password.getD "") = false →
        credentialsAuthorize bc db c = .error "Invalid credentials") ∧
    (∀ bc db c e user, (optFalsy c.email || optFalsy c.password) = false →
        c.email = some e → findUser db e = some user →
        optFalsy user.password = false →
        bc (c.password.getD "") (user.password.getD "") = true →
        user.role ≠ "ADMIN" →
        credentialsAuthorize bc db c = .error "Admin access required") ∧
    (∀ bc db c e user, (optFalsy c.email || optFalsy c.password) = false →
        c.email = some e → findUser db e = some user →
        optFalsy user.password = false →
        bc (c.password.getD "") (user.password.getD "") = true →
        user.role = "ADMIN" →
        (findWhitelist db e = none ∨
          ∃ w, findWhitelist db e = some w ∧ w.isActive = false) →
        credentialsAuthorize bc db c =
          .error "Admin access not authorized") := by
  refine ⟨?_, ?_, ?_, ?_, ?_, ?_⟩
  · intro bc db c h
    simp [credentialsAuthorize, h]
  · intro bc db c e h he hu
    rw [he] at h
    simp [credentialsAuthorize, h, he, hu]
  · intro bc db c e user h he hu hp
    rw [he] at h
    simp [credentialsAuthorize, h, he, hu, hp]
  · intro bc db c e user h he hu hp hb
    rw [he] at h
    simp [credentialsAuthorize, h, he, hu, hp, hb]
  · intro bc db c e user h he hu hp hb hr
    rw [he] at h
    simp [credentialsAuthorize, h, he, hu, hp, hb, hr, beq_iff_eq]
  · intro bc db c e user h he hu hp hb hr hw
    rw [he] at h
    rcases hw with hw | ⟨w, hw, hact⟩
    · simp [credentialsAuthorize, h, he, hu, hp, hb, hr, hw, beq_iff_eq]
    · simp [credentialsAuthorize, h, he, hu, hp, hb, hr, hw, beq_iff_eq, hact]

/-- A bcrypt comparison oracle that accepts exactly the stored hash. -/
def bcEq : String → String → Bool := fun p h => p == h

/-- An ADMIN record with no password hash set. -/
def userNoPw : LocalUserRecord :=
  { id := "u2", email := "b@x.com", name := none, image := none,
    role := "ADMIN", password := none }

/-- A USER-role record with a password hash. -/
def plainUser : LocalUserRecord :=
  { id := "u3", email := "c@x.com", name := none, image := none,
    role := "USER", password := some "pw" }

/-- Store with only the hashless admin record. -/
def dbNoPw : Db := { users := [userNoPw], adminWhitelist := [] }

/-- Store with only the USER-role record. -/
def dbPlain : Db := { users := [plainUser], adminWhitelist := [] }

/-- Store with the admin record and no whitelist row at all. -/
def dbAdminNoWl : Db := { users := [adminUser], adminWhitelist := [] }

/-- Credentials for the fixture admin with the matching hash. -/
def credA : Credentials :=
  { email := some "a@x.com", password := some "hash1" }

/-- Witness for C6: every branch of the local-credential strategy at a
concrete input — blank credentials, unknown email, hashless record,
password mismatch, USER role, and missing whitelist row. -/
theorem c6_local_strategy_witness :
    credentialsAuthorize bcEq dbAdminActive
        { email := none, password := none } =
      .error "Email and password are required" ∧
    credentialsAuthorize bcEq dbAdminActive
        { email := some "b@x.com", password := some "pw" } =
      .error "Invalid credentials" ∧
    credentialsAuthorize bcEq dbNoPw
        { email := some "b@x.com", password := some "pw" } =
      .error "Invalid credentials" ∧
    credentialsAuthorize bcEq dbAdminActive
        { email := some "a@x.com", password := some "wrong" } =
      .error "Invalid credentials" ∧
    credentialsAuthorize bcEq dbPlain
        { email := some "c@x.com", password := some "pw" } =
      .error "Admin access required" ∧
    credentialsAuthorize bcEq dbAdminNoWl credA =
      .error "Admin access not authorized" :=
  ⟨c6_local_strategy.1 bcEq dbAdminActive
      { email := none, password := none } (by decide),
   c6_local_strategy.2.1 bcEq dbAdminActive
      { email := some "b@x.com", password := some "pw" } "b@x.com"
      (by decide) rfl (by decide),
   c6_local_strategy.2.2.1 bcEq dbNoPw
      { email := some "b@x.com", password := some "pw" } "b@x.com" userNoPw
      (by decide) rfl (by decide) (by decide),
   c6_local_strategy.2.2.2.1 bcEq dbAdminActive
      { email := some "a@x.com", password := some "wrong" } "a@x.com"
      adminUser (by decide) rfl (by decide) (by decide) (by decide),
   c6_local_strategy.2.2.2.2.1 bcEq dbPlain
      { email := some "c@x.com", password := some "pw" } "c@x.com" plainUser
      (by decide) rfl (by decide) (by decide) (by decide) (by decide),
   c6_local_strategy.2.2.2.2.2 bcEq dbAdminNoWl credA "a@x.com" adminUser
      (by decide) rfl (by decide) (by decide) (by decide) (by decide)
      (Or.inl (by decide))⟩

/-- C7: the remote-credential strategy rejects blank credentials before any
remote handle is acquired (the verdict is the same for every remote
outcome), fails `Invalid credentials` when the remote store returns no
match, fails `Admin access required` when the returned role is not ADMIN,
and on an ADMIN role returns the verified identity built from the remote
record. -/
theorem c7_remote_strategy :
    (∀ remote c, (optFalsy c.email || optFalsy c.password) = true →
        (neonAuthorize remote c).result =
          .error "Email and password are required" ∧
        (neonAuthorize remote c).connected = false) ∧
    (∀ remote c, (optFalsy c.email || optFalsy c.password) = false →
        remote = .ok none →
        (neonAuthorize remote c).result = .error "Invalid credentials") ∧
    (∀ remote c nu, (optFalsy c.email || optFalsy c.password) = false →
        remote = .ok (some nu) → nu.role ≠ "ADMIN" →
        (neonAuthorize remote c).result = .error "Admin access required") ∧
    (∀ remote c nu, (optFalsy c.email || optFalsy c.password) = false →
        remote = .ok (some nu) → nu.role = "ADMIN" →
        (neonAuthorize remote c).result =
          .ok { id := nu.id, email := nu.email, name := nu.name,
                image := none, neonRole := nu.databaseRole,
                permissions := nu.permissions }) := by
  refine ⟨?_, ?_, ?_, ?_⟩
  · intro remote c h
    simp [neonAuthorize, h]
  · intro remote c h hr
    subst hr
    simp [neonAuthorize, h]
  · intro remote c nu h hr hrole
    subst hr
    simp [neonAuthorize, h, hrole, bne_iff_ne]
  · intro remote c nu h hr hrole
    subst hr
    simp [neonAuthorize, h, hrole]

/-- A remote ADMIN record for the fixture email. -/
def neonAdmin : NeonUser :=
  { id := "n1", email := "a@x.com", name := some "Alice", role := "ADMIN",
    databaseRole := "neondb_owner", permissions := ["all"] }

/-- A remote USER record for the fixture email. -/
def neonPlain : NeonUser :=
  { id := "n2", email := "a@x.com", name := some "Alice", role := "USER",
    databaseRole := "authenticated", permissions := [] }

/-- Witness for C7: every branch of the remote-credential strategy at a
concrete input. -/
theorem c7_remote_strategy_witness :
    ((neonAuthorize (.ok (some neonAdmin))
        { email := none, password := none }).result =
      .error "Email and password are required" ∧
     (neonAuthorize (.ok (some neonAdmin))
        { email := none, password := none }).connected = false) ∧
    (neonAuthorize (.ok none) credA).result =
      .error "Invalid credentials" ∧
    (neonAuthorize (.ok (some neonPlain)) credA).result =
      .error "Admin access required" ∧
    (neonAuthorize (.ok (some neonAdmin)) credA).result =
      .ok { id := "n1", email := "a@x.com", name := some "Alice",
            image := none, neonRole := "neondb_owner",
            permissions := ["all"] } :=
  ⟨c7_remote_strategy.1 (.ok (some neonAdmin))
      { email := none, password := none } (by decide),
   c7_remote_strategy.2.1 (.ok none) credA (by decide) rfl,
   c7_remote_strategy.2.2.1 (.ok (some neonPlain)) credA neonPlain
      (by decide) rfl (by decide),
   c7_remote_strategy.2.2.2 (.ok (some neonAdmin)) credA neonAdmin
      (by decide) rfl rfl⟩

/-- The update clause preserves the row's email key. -/
theorem updateFields_email (n i : Option String) (r e : String)
    (u : LocalUserRecord) : (updateFields n i r e u).email = u.email := by
  unfold updateFields
  split <;> rfl

/-- The update clause is idempotent on a row. -/
theorem updateFields_idem (n i : Option String) (r e : String)
    (u : LocalUserRecord) :
    updateFields n i r e (updateFields n i r e u) = updateFields n i r e u := by
  unfold updateFields
  by_cases ha : (u.email == e) = true
  · rw [if_pos ha,
      if_pos (show (({ u with name := n, image := i, role := r } :
        LocalUserRecord).email == e) = true from ha)]
  · rw [if_neg ha, if_neg ha]

/-- The update clause leaves a non-matching row unchanged. -/
theorem updateFields_of_ne (n i : Option String) (r e : String)
    (u : LocalUserRecord) (h : (u.email == e) = false) :
    updateFields n i r e u = u := by
  unfold updateFields
  rw [if_neg (by simp [h])]

/-- The upsert's update pass preserves which rows match the email key. -/
theorem upsert_map_any (l : List LocalUserRecord) (e : String)
    (n i : Option String) (r : String) :
    (l.map (updateFields n i r e)).any (fun u => u.email == e) =
      l.any (fun u => u.email == e) := by
  induction l with
  | nil => rfl
  | cons a t ih =>
    rw [List.map_cons, List.any_cons, List.any_cons, ih, updateFields_email]

/-- Applying the upsert's update pass twice equals applying it once. -/
theorem upsert_map_idem (l : List LocalUserRecord) (e : String)
    (n i : Option String) (r : String) :
    (l.map (updateFields n i r e)).map (updateFields n i r e) =
      l.map (updateFields n i r e) := by
  induction l with
  | nil => rfl
  | cons a t ih =>
    rw [List.map_cons, List.map_cons, updateFields_idem, ih]

/-- The update pass is the identity on a list with no matching row. -/
theorem upsert_map_of_any_false (l : List LocalUserRecord) (e : String)
    (n i : Option String) (r : String)
    (h : l.any (fun u => u.email == e) = false) :
    l.map (updateFields n i r e) = l := by
  induction l with
  | nil => rfl
  | cons a t ih =>
    rw [List.any_cons, Bool.or_eq_false_iff] at h
    rw [List.map_cons, updateFields_of_ne _ _ _ _ _ h.1, ih h.2]

/-- The upsert never touches the whitelist table. -/
theorem upsertUser_whitelist (db : Db) (e : String) (n i : Option String)
    (r : String) :
    (upsertUser db e n i r).adminWhitelist = db.adminWhitelist := by
  unfold upsertUser
  split <;> rfl

/-- The upsert in the update case. -/
theorem upsertUser_pos (l : List LocalUserRecord) (wl : List WhitelistEntry)
    (e : String) (n i : Option String) (r : String)
    (h : l.any (fun u => u.email == e) = true) :
    upsertUser ⟨l, wl⟩ e n i r = ⟨l.map (updateFields n i r e), wl⟩ := by
  unfold upsertUser
  rw [if_pos h]

/-- The upsert in the create case. -/
theorem upsertUser_neg (l : List LocalUserRecord) (wl : List WhitelistEntry)
    (e : String) (n i : Option String) (r : String)
    (h : l.any (fun u => u.email == e) = false) :
    upsertUser ⟨l, wl⟩ e n i r = ⟨l ++ [createRec e n i r], wl⟩ := by
  unfold upsertUser
  rw [if_neg (by simp [h])]

/-- The atomic upsert is idempotent: running it twice with the same fields
leaves the store exactly as after the first run. -/
theorem upsertUser_idem (db : Db) (e : String) (n i : Option String)
    (r : String) :
    upsertUser (upsertUser db e n i r) e n i r = upsertUser db e n i r := by
  obtain ⟨l, wl⟩ := db
  cases hq : l.any (fun u => u.email == e) with
  | true =>
    rw [upsertUser_pos l wl e n i r hq,
      upsertUser_pos (l.map (updateFields n i r e)) wl e n i r
        (by rw [upsert_map_any]; exact hq),
      upsert_map_idem]
  | false =>
    rw [upsertUser_neg l wl e n i r hq,
      upsertUser_pos (l ++ [createRec e n i r]) wl e n i r
        (by simp [createRec]),
      List.map_append, upsert_map_of_any_false l e n i r hq,
      show ([createRec e n i r].map (updateFields n i r e)) =
        [createRec e n i r] from by simp [createRec, updateFields]]

/-- The role the signIn callback derives is unchanged by its own upsert. -/
theorem targetRole_upsert (db : Db) (e e' : String) (n i : Option String)
    (r : String) :
    targetRole (upsertUser db e' n i r) e = targetRole db e := by
  simp [targetRole, findWhitelist, upsertUser_whitelist]

/-- The local store after a federated Google sign-in with a non-empty email
is exactly the atomic upsert with the whitelist-derived role, for every
remote behaviour. -/
theorem signInCallback_db (beh : NeonBehavior) (db : Db) (neon : NeonState)
    (u : SignInUser) (e : String) (he : u.email = some e) (hne : e ≠ "") :
    (signInCallback beh db neon "google" u).db =
      upsertUser db e u.name u.image (targetRole db e) := by
  have hb : (e == "") = false := by
    simpa using hne
  simp only [signInCallback, optFalsy, he, Option.getD_some]
  rw [hb]
  simp only [Bool.not_false, beq_self_eq_true, Bool.and_self, if_true]
  split <;> simp [targetRole]

/-- C8: federated reconciliation is idempotent on the local store — running
the sign-in callback twice with the same principal and the same remote
behaviour leaves the local store after the second run identical to the
state after the first run. -/
theorem c8_reconcile_idempotent (beh : NeonBehavior) (db : Db)
    (neon : NeonState) (p : String) (u : SignInUser) :
    (signInCallback beh (signInCallback beh db neon p u).db
        (signInCallback beh db neon p u).neon p u).db =
      (signInCallback beh db neon p u).db := by
  by_cases hp : p = "google"
  · subst hp
    cases he : u.email with
    | none => simp [signInCallback, optFalsy, he]
    | some e =>
      by_cases hne : e = ""
      · subst hne
        simp [signInCallback, optFalsy, he]
      · rw [signInCallback_db beh db neon u e he hne,
          signInCallback_db beh _ _ u e he hne,
          targetRole_upsert, upsertUser_idem]
  · have hg : (p == "google") = false := by
      simpa using hp
    simp [signInCallback, hg]

/-- A token carrying an uppercase variant of the fixture email. -/
def tokAUpper : Token :=
  { id := none, email := some "A@X.COM", isAdmin := false,
    canManageUsers := false, canManageContent := false,
    canManageSettings := false }

/-- Counterexample to C9: no case normalization is applied before keying.
Two emails that differ only in letter case resolve differently against the
same store — the lowercase form is recognised as admin, the uppercase form
is not — so the operations do not normalize case on the join key. -/
theorem c9_counterexample :
    "A@X.COM".data.map Char.toLower = "a@x.com".data ∧
    (jwtCallback dbAdminActive tokA none).isAdmin = true ∧
    (jwtCallback dbAdminActive tokAUpper none).isAdmin = false := by
  refine ⟨?_, ?_, ?_⟩ <;> decide

/-- C9 as amended: the operations key both stores with the raw email
verbatim (consistently the identity transformation, never lowercasing):
every lookup returns only a row whose stored email equals the query
exactly, the upsert's row for the key carries exactly the given email, and
rows under any other email are left in place. -/
theorem c9_amended_verbatim_key :
    (∀ db e u, findUser db e = some u → u.email = e) ∧
    (∀ db e w, findWhitelist db e = some w → w.email = e) ∧
    (∀ st e u, findNeonUser st e = some u → u.email = e) ∧
    (∀ db e n i r u, findUser (upsertUser db e n i r) e = some u →
        u.email = e) ∧
    (∀ db e n i r u, u ∈ db.users → u.email ≠ e →
        u ∈ (upsertUser db e n i r).users) := by
  have hfu : ∀ db e u, findUser db e = some u → u.email = e := by
    intro db e u h
    have := List.find?_some h
    simpa using this
  refine ⟨hfu, ?_, ?_, ?_, ?_⟩
  · intro db e w h
    have := List.find?_some h
    simpa using this
  · intro st e u h
    have := List.find?_some h
    simpa using this
  · intro db e n i r u h
    exact hfu _ e u h
  · intro db e n i r u hu hne
    unfold upsertUser
    split
    · exact List.mem_map.mpr ⟨u, hu,
        updateFields_of_ne n i r e u (by simpa using hne)⟩
    · exact List.mem_append_left _ hu

/-- A remote store holding the fixture admin record. -/
def neonStA : NeonState := { users := [neonAdmin] }

/-- Witness for the amended C9: each verbatim-key fact at a concrete
input. -/
theorem c9_amended_verbatim_key_witness :
    adminUser.email = "a@x.com" ∧
    wlActive.email = "a@x.com" ∧
    neonAdmin.email = "a@x.com" ∧
    adminUser.email = "a@x.com" ∧
    plainUser ∈ (upsertUser dbPlain "zz@x.com" none none "USER").users :=
  ⟨c9_amended_verbatim_key.1 dbAdminActive "a@x.com" adminUser (by decide),
   c9_amended_verbatim_key.2.1 dbAdminActive "a@x.com" wlActive (by decide),
   c9_amended_verbatim_key.2.2.1 neonStA "a@x.com" neonAdmin (by decide),
   c9_amended_verbatim_key.2.2.2.1 dbAdminActive "a@x.com" (some "Alice")
      none "ADMIN" adminUser (by decide),
   c9_amended_verbatim_key.2.2.2.2 dbPlain "zz@x.com" none none "USER"
      plainUser (by decide) (by decide)⟩

end LabPr
